import Mathlib

/-!
Shallow embedding of the presence-synchronization core of
`discord_presence` (src/main.rs): the field model, the timestamp
resolver and payload compiler inside `App::set_presence`, the
connection handling of `App::update`, and the preset merge of
`App::load_preset`.  Machine dates/instants are modelled as epoch
seconds (`Int`); the external `chrono` and `discord_rich_presence`
crates are reflected only in the shapes `set_presence` actually builds.
-/

/-- Modelled from the spec: the `timestamp` module is not under `src/`;
`main.rs` matches on variants `LocalTime`, `CustomTimeStamp`,
`SinceStart`, `SinceLastUpdate` and a wildcard arm, and the spec names
the remaining mode `None`. -/
inductive TimestampEnum where
  | localTime
  | customTimeStamp
  | sinceStart
  | sinceLastUpdate
  | none
deriving DecidableEq, Repr

/-- The `timestamp::Timestamp` record: a mode plus the selected custom
date, the latter represented by the epoch seconds of its UTC midnight
(the only way `set_presence` consumes it, via
`date.naive_utc().and_hms(0,0,0).timestamp()`). -/
structure Timestamp where
  timestamp : TimestampEnum
  date : Int
deriving DecidableEq, Repr

/-- `presence_button::PresenceButton` — also the shape of the crate
`Button` values pushed by `set_presence` (`Button::new(label, url)`). -/
structure PresenceButton where
  label : String
  url : String
deriving DecidableEq, Repr

/-- `image::Image`: an asset key plus hover text. -/
structure Image where
  key : String
  text : String
deriving DecidableEq, Repr

/-- The transport client handle as `set_presence` sees it: tagged with
the `client_id` it was created for. -/
structure DiscordIpcClient where
  client_id : String
deriving DecidableEq, Repr

/-- `preset::Preset`: the sparse record consumed by `App::load_preset`;
field names are the ones `load_preset` reads.  `timestampMode` backs
the `preset.timestamp()` accessor, modelled below. -/
structure Preset where
  ID : Option String
  Details : Option String
  State : Option String
  PartySize : Option Nat
  PartyMax : Option Nat
  timestampMode : Option TimestampEnum
  LargeKey : Option String
  LargeText : Option String
  SmallKey : Option String
  SmallText : Option String
  Button1Text : Option String
  Button1URL : Option String
  Button2Text : Option String
  Button2URL : Option String
deriving DecidableEq, Repr

/-- Modelled from the spec: the `preset` module (not under `src/`)
supplies `preset.timestamp()`, which always resolves to a concrete
mode, the default one when the preset leaves it unspecified. -/
def Preset.timestamp (p : Preset) : TimestampEnum :=
  p.timestampMode.getD TimestampEnum.none

/-- The slice of `menu_bar::MenuBar` the core touches: two UI
preferences, the About flag, and the one-shot loaded preset. -/
structure MenuBar where
  autoconnect : Bool
  darkmode : Bool
  about_me : Bool
  loaded_preset : Option Preset
deriving DecidableEq, Repr

/-- The `App` state of `main.rs` (UI-only widgets aside), with instants
as epoch seconds. -/
structure App where
  menu_bar : MenuBar
  first_btn : PresenceButton
  second_btn : PresenceButton
  first_img : Image
  second_img : Image
  id : String
  details : String
  state : String
  party : Nat
  party_of : Nat
  timestamp : Timestamp
  client : DiscordIpcClient
  connected : Bool
  started : Int
  last_update : Int
deriving DecidableEq, Repr

/-- Ambient clock readings used by one `set_presence` call: the UTC
`now` in epoch seconds and the local wall-clock hour/minute/second
(`Local::now().format(..)`). -/
structure Clock where
  utcNow : Int
  localHour : Int
  localMinute : Int
  localSecond : Int
deriving DecidableEq, Repr

/-- The `Timestamps` block of the activity as built by `set_presence`:
either a start instant or nothing (`Timestamps::new()`). -/
structure Timestamps where
  start : Option Int
deriving DecidableEq, Repr

/-- The `Assets` block: each entry set only by the corresponding
non-empty-string branch of `set_presence`. -/
structure Assets where
  large_image : Option String
  large_text : Option String
  small_image : Option String
  small_text : Option String
deriving DecidableEq, Repr

/-- The `Party` block: `Party::new().size([party_of, party])` — the
capacity first, then the current size. -/
structure Party where
  size : Nat × Nat
deriving DecidableEq, Repr

/-- The compiled activity payload, with exactly the optional/mandatory
split that the builder chain of `set_presence` produces: `timestamps`
and `assets` are always attached, the rest only conditionally. -/
structure Activity where
  timestamps : Timestamps
  assets : Assets
  details : Option String
  state : Option String
  buttons : Option (List PresenceButton)
  party : Option Party
deriving DecidableEq, Repr

/-- The timestamp resolver: the `match self.timestamp.timestamp` of
`set_presence` (lines 276-303).  `LocalTime` subtracts the seconds
elapsed since local midnight from the current UTC instant; the
wildcard arm produces no start instant. -/
def resolveTimestamp (t : Timestamp) (clock : Clock)
    (started last_update : Int) : Option Int :=
  match t.timestamp with
  | TimestampEnum.localTime =>
      some (clock.utcNow -
        (clock.localHour * 3600 + clock.localMinute * 60 + clock.localSecond))
  | TimestampEnum.customTimeStamp => some t.date
  | TimestampEnum.sinceStart => some started
  | TimestampEnum.sinceLastUpdate => some last_update
  | TimestampEnum.none => Option.none

/-- The payload compiler: lines 273-353 of `set_presence`, with each
`match .. { "" => .., _ => .. }` rendered as the equality test it
compiles to. -/
def compileActivity (s : App) (clock : Clock) : Activity :=
  let first_btn := s.first_btn
  let second_btn := s.second_btn
  let timestamp : Timestamps :=
    { start := resolveTimestamp s.timestamp clock s.started s.last_update }
  let assets : Assets :=
    { large_image := Option.none, large_text := Option.none
      small_image := Option.none, small_text := Option.none }
  let assets := if s.first_img.key = "" then assets
    else { assets with large_image := some s.first_img.key }
  let assets := if s.first_img.text = "" then assets
    else { assets with large_text := some s.first_img.text }
  let assets := if s.second_img.key = "" then assets
    else { assets with small_image := some s.second_img.key }
  let assets := if s.second_img.text = "" then assets
    else { assets with small_text := some s.second_img.text }
  let details := if s.details = "" then Option.none else some s.details
  let state := if s.state = "" then Option.none else some s.state
  let buttons : List PresenceButton := []
  let buttons := if s.first_btn.label ≠ "" ∧ s.first_btn.url ≠ ""
    then buttons ++ [first_btn] else buttons
  let buttons := if s.second_btn.label ≠ "" ∧ s.second_btn.url ≠ ""
    then buttons ++ [second_btn] else buttons
  let buttonsField := if buttons.length > 0 then some buttons else Option.none
  let party := if s.party ≠ 0 ∧ s.state ≠ ""
    then some ({ size := (s.party_of, s.party) } : Party) else Option.none
  { timestamps := timestamp, assets := assets, details := details
    state := state, buttons := buttonsField, party := party }

/-- Transport operations observable at the `DiscordIpc` boundary. -/
inductive IpcOp where
  | close
  | create (id : String)
  | connect
deriving DecidableEq, Repr, BEq

/-- Lines 264-272 of `set_presence`: if the form identity differs from
the one the client handle is bound to, close the handle, create a new
client for the requested identity and connect it; otherwise touch
nothing.  Returns the new state and the transport operations issued. -/
def ensure_identity (s : App) : App × List IpcOp :=
  if s.id ≠ s.client.client_id then
    ({ s with client := { client_id := s.id } },
      [IpcOp.close, IpcOp.create s.id, IpcOp.connect])
  else (s, [])

/-- `App::set_presence` up to the final `set_activity` call: ensure the
client identity, then compile the activity from the (possibly
reconnected) state. -/
def set_presence (s : App) (clock : Clock) : App × List IpcOp × Activity :=
  let t := ensure_identity s
  (t.1, t.2, compileActivity t.1 clock)

/-- Error taxonomy of the connect path: the Connect handler aborts when
the identity field is empty. -/
inductive ConnError where
  | connectionError
deriving DecidableEq, Repr

/-- The Connect-button handler (lines 186-197 of `App::update`): when
the identity is non-empty, create a client for it, connect, stamp
`last_update` with the current instant, run `set_presence` (which
sends the compiled activity) and mark the app connected; when the
identity is empty the action aborts with nothing changed and nothing
sent.  Returns the state, the list of sent payloads, and the abort
error if any. -/
def connectAction (s : App) (clock : Clock) (now : Int) :
    App × List Activity × Option ConnError :=
  if s.id ≠ "" then
    let s1 := { s with client := { client_id := s.id }, last_update := now }
    let t := set_presence s1 clock
    ({ t.1 with connected := true }, [t.2.2], Option.none)
  else (s, [], some ConnError.connectionError)

/-- The Disconnect-button handler (lines 199-205 of `App::update`):
`self.client.close().expect(..)` then `self.connected = false`.  A
failing close panics inside `expect` before the flag is cleared, so the
action completes (with the state transition) only when close succeeds;
`Option.none` models the panic. -/
def disconnectAction (s : App) (closeOk : Bool) : Option App :=
  if closeOk then some { s with connected := false } else Option.none

/-- The Update-Presence handler (lines 237-248 of `App::update`):
`self.last_update = Utc::now()` and then `set_presence`, whose final
`set_activity` may fail.  The returned `App` is the state in force when
the send is attempted (a failing send panics afterwards and mutates
nothing further); the `Bool` echoes whether the send succeeded. -/
def updateAction (s : App) (clock : Clock) (now : Int) (sendOk : Bool) :
    App × List IpcOp × Activity × Bool :=
  let s1 := { s with last_update := now }
  let t := set_presence s1 clock
  (t.1, t.2.1, t.2.2, sendOk)

/-- One field-merge step of `App::load_preset`:
`if preset.F != None { target.f = preset.F.unwrap() }`. -/
def mergeField {α : Type} (o : Option α) (f : α → App → App) (s : App) : App :=
  match o with
  | some v => f v s
  | Option.none => s

/-- The field-by-field body of `App::load_preset` (lines 361-400), in
source order; the timestamp mode is written unconditionally from
`preset.timestamp()`. -/
def merge (s : App) (p : Preset) : App :=
  let s := mergeField p.ID (fun v t => { t with id := v }) s
  let s := mergeField p.Details (fun v t => { t with details := v }) s
  let s := mergeField p.State (fun v t => { t with state := v }) s
  let s := mergeField p.PartySize (fun v t => { t with party := v }) s
  let s := mergeField p.PartyMax (fun v t => { t with party_of := v }) s
  let s := { s with timestamp := { s.timestamp with timestamp := p.timestamp } }
  let s := mergeField p.LargeKey
    (fun v t => { t with first_img := { t.first_img with key := v } }) s
  let s := mergeField p.LargeText
    (fun v t => { t with first_img := { t.first_img with text := v } }) s
  let s := mergeField p.SmallKey
    (fun v t => { t with second_img := { t.second_img with key := v } }) s
  let s := mergeField p.SmallText
    (fun v t => { t with second_img := { t.second_img with text := v } }) s
  let s := mergeField p.Button1Text
    (fun v t => { t with first_btn := { t.first_btn with label := v } }) s
  let s := mergeField p.Button1URL
    (fun v t => { t with first_btn := { t.first_btn with url := v } }) s
  let s := mergeField p.Button2Text
    (fun v t => { t with second_btn := { t.second_btn with label := v } }) s
  let s := mergeField p.Button2URL
    (fun v t => { t with second_btn := { t.second_btn with url := v } }) s
  s

/-- `App::load_preset` (lines 358-403): a no-op unless a preset is
loaded; otherwise merge it into the field model and clear
`loaded_preset` so it is not applied again. -/
def load_preset (s : App) : App :=
  match s.menu_bar.loaded_preset with
  | Option.none => s
  | some p =>
      let s1 := merge s p
      { s1 with menu_bar := { s1.menu_bar with loaded_preset := Option.none } }

/-- The preset with every field absent. -/
def allAbsentPreset : Preset :=
  { ID := Option.none, Details := Option.none, State := Option.none
    PartySize := Option.none, PartyMax := Option.none
    timestampMode := Option.none
    LargeKey := Option.none, LargeText := Option.none
    SmallKey := Option.none, SmallText := Option.none
    Button1Text := Option.none, Button1URL := Option.none
    Button2Text := Option.none, Button2URL := Option.none }

/-- A base app state with every form field empty, used to build concrete
instances. -/
def app0 : App :=
  { menu_bar :=
      { autoconnect := false, darkmode := false, about_me := false
        loaded_preset := Option.none }
    first_btn := { label := "", url := "" }
    second_btn := { label := "", url := "" }
    first_img := { key := "", text := "" }
    second_img := { key := "", text := "" }
    id := "", details := "", state := "", party := 0, party_of := 0
    timestamp := { timestamp := TimestampEnum.none, date := 0 }
    client := { client_id := "0" }
    connected := false, started := 0, last_update := 0 }

/-- A fixed clock reading for concrete instances. -/
def clock0 : Clock :=
  { utcNow := 1000, localHour := 0, localMinute := 10, localSecond := 5 }

/-- C1: a button slot appears in the compiled payload iff both its
label and its url are non-empty, independently for each slot; when both
qualify, button 1 precedes button 2; when neither qualifies the buttons
field is omitted entirely. -/
theorem buttons_included_iff (s : App) (clock : Clock) :
    ((s.first_btn.label ≠ "" ∧ s.first_btn.url ≠ "") →
      (s.second_btn.label ≠ "" ∧ s.second_btn.url ≠ "") →
      (compileActivity s clock).buttons = some [s.first_btn, s.second_btn]) ∧
    ((s.first_btn.label ≠ "" ∧ s.first_btn.url ≠ "") →
      ¬(s.second_btn.label ≠ "" ∧ s.second_btn.url ≠ "") →
      (compileActivity s clock).buttons = some [s.first_btn]) ∧
    (¬(s.first_btn.label ≠ "" ∧ s.first_btn.url ≠ "") →
      (s.second_btn.label ≠ "" ∧ s.second_btn.url ≠ "") →
      (compileActivity s clock).buttons = some [s.second_btn]) ∧
    ((compileActivity s clock).buttons = Option.none ↔
      (¬(s.first_btn.label ≠ "" ∧ s.first_btn.url ≠ "") ∧
       ¬(s.second_btn.label ≠ "" ∧ s.second_btn.url ≠ ""))) := by
  by_cases h1 : s.first_btn.label = "" <;>
    by_cases h2 : s.first_btn.url = "" <;>
      by_cases h3 : s.second_btn.label = "" <;>
        by_cases h4 : s.second_btn.url = "" <;>
          simp [compileActivity, h1, h2, h3, h4]

/-- C1 witness: with both slots fully filled, the payload carries both
buttons in declaration order. -/
theorem buttons_included_iff_witness :
    (compileActivity
      { app0 with
        first_btn := { label := "a", url := "u" }
        second_btn := { label := "b", url := "v" } } clock0).buttons =
      some [{ label := "a", url := "u" }, { label := "b", url := "v" }] :=
  (buttons_included_iff
    { app0 with
      first_btn := { label := "a", url := "u" }
      second_btn := { label := "b", url := "v" } } clock0).1
    (by decide) (by decide)

/-- C2: the party block is present iff `party_size != 0` and `state` is
non-empty, and when present it carries the pair (capacity, size) with
the capacity first. -/
theorem party_included_iff (s : App) (clock : Clock) :
    ((compileActivity s clock).party = Option.none ↔
      (s.party = 0 ∨ s.state = "")) ∧
    (s.party ≠ 0 → s.state ≠ "" →
      (compileActivity s clock).party = some { size := (s.party_of, s.party) }) := by
  by_cases hp : s.party = 0 <;> by_cases hs : s.state = "" <;>
    simp [compileActivity, hp, hs]

/-- C2 witness: party 2 of 10 with non-empty state yields the block
(10, 2); capacity first. -/
theorem party_included_iff_witness :
    (compileActivity
      { app0 with state := "x", party := 2, party_of := 10 } clock0).party =
      some { size := (10, 2) } :=
  (party_included_iff
    { app0 with state := "x", party := 2, party_of := 10 } clock0).2
    (by decide) (by decide)

/-- C3: when details and state are empty, no image key or label is set,
no button label or url is set and the party size is 0, the compiled
payload has no optional field at all except possibly the timestamp,
and the timestamp start is present iff the resolver mode is not None. -/
theorem empty_model_minimal_payload (s : App) (clock : Clock)
    (hd : s.details = "") (hs : s.state = "")
    (h1k : s.first_img.key = "") (h1t : s.first_img.text = "")
    (h2k : s.second_img.key = "") (h2t : s.second_img.text = "")
    (hb1l : s.first_btn.label = "") (hb1u : s.first_btn.url = "")
    (hb2l : s.second_btn.label = "") (hb2u : s.second_btn.url = "")
    (hp : s.party = 0) :
    (compileActivity s clock).details = Option.none ∧
    (compileActivity s clock).state = Option.none ∧
    (compileActivity s clock).assets =
      { large_image := Option.none, large_text := Option.none
        small_image := Option.none, small_text := Option.none } ∧
    (compileActivity s clock).buttons = Option.none ∧
    (compileActivity s clock).party = Option.none ∧
    ((compileActivity s clock).timestamps.start.isSome ↔
      s.timestamp.timestamp ≠ TimestampEnum.none) := by
  have hres : (resolveTimestamp s.timestamp clock s.started s.last_update).isSome
      = true ↔ ¬s.timestamp.timestamp = TimestampEnum.none := by
    cases h : s.timestamp.timestamp <;> simp [resolveTimestamp, h]
  refine ⟨?_, ?_, ?_, ?_, ?_, ?_⟩ <;>
    simp [compileActivity, hd, hs, h1k, h1t, h2k, h2t, hb1l, hb1u, hb2l, hb2u,
      hp, hres]

/-- C3 witness: the all-empty app with mode None compiles to the bare
payload with no timestamp start. -/
theorem empty_model_minimal_payload_witness :
    (compileActivity app0 clock0).buttons = Option.none ∧
    ¬ (compileActivity app0 clock0).timestamps.start.isSome :=
  ⟨(empty_model_minimal_payload app0 clock0 rfl rfl rfl rfl rfl rfl rfl rfl
      rfl rfl rfl).2.2.2.1,
   fun h =>
     (by decide :
       ¬ app0.timestamp.timestamp ≠ TimestampEnum.none)
       ((empty_model_minimal_payload app0 clock0 rfl rfl rfl rfl rfl rfl rfl
          rfl rfl rfl rfl).2.2.2.2.2.mp h)⟩

/-- C4 counterexample: it is not true that an image label is attached
only alongside an included key — with an empty large-image key and a
non-empty large-image text, `set_presence` still attaches the text. -/
theorem image_label_without_key_counterexample :
    ¬ (∀ (s : App) (clock : Clock),
        (compileActivity s clock).assets.large_text = Option.none ∨
        (compileActivity s clock).assets.large_image ≠ Option.none) := by
  intro h
  rcases h { app0 with first_img := { key := "", text := "hi" } } clock0 with
    hc | hc
  · exact absurd hc (by decide)
  · exact hc (by decide)

/-- C4 amended: an image slot's key is included in the payload iff it
is non-empty, and its label is attached iff the label is non-empty —
regardless of whether the slot's key is included (a non-empty label is
attached even when the key is empty). -/
theorem image_slots_included_iff (s : App) (clock : Clock) :
    ((compileActivity s clock).assets.large_image ≠ Option.none ↔
      s.first_img.key ≠ "") ∧
    (s.first_img.key ≠ "" →
      (compileActivity s clock).assets.large_image = some s.first_img.key) ∧
    ((compileActivity s clock).assets.large_text ≠ Option.none ↔
      s.first_img.text ≠ "") ∧
    (s.first_img.text ≠ "" →
      (compileActivity s clock).assets.large_text = some s.first_img.text) ∧
    ((compileActivity s clock).assets.small_image ≠ Option.none ↔
      s.second_img.key ≠ "") ∧
    (s.second_img.key ≠ "" →
      (compileActivity s clock).assets.small_image = some s.second_img.key) ∧
    ((compileActivity s clock).assets.small_text ≠ Option.none ↔
      s.second_img.text ≠ "") ∧
    (s.second_img.text ≠ "" →
      (compileActivity s clock).assets.small_text = some s.second_img.text) := by
  by_cases h1 : s.first_img.key = "" <;>
    by_cases h2 : s.first_img.text = "" <;>
      by_cases h3 : s.second_img.key = "" <;>
        by_cases h4 : s.second_img.text = "" <;>
          simp [compileActivity, h1, h2, h3, h4]

/-- C4 amended witness: a filled large slot and an empty small slot
compile to exactly the large pair. -/
theorem image_slots_included_iff_witness :
    (compileActivity
      { app0 with first_img := { key := "k", text := "t" } } clock0).assets.large_image
      = some "k" ∧
    (compileActivity
      { app0 with first_img := { key := "k", text := "t" } } clock0).assets.large_text
      = some "t" :=
  ⟨(image_slots_included_iff
      { app0 with first_img := { key := "k", text := "t" } } clock0).2.1
      (by decide),
   (image_slots_included_iff
      { app0 with first_img := { key := "k", text := "t" } } clock0).2.2.2.1
      (by decide)⟩

/-- A present field overwrites the target. -/
theorem mergeField_some {α : Type} (v : α) (f : α → App → App) (s : App) :
    mergeField (some v) f s = f v s := rfl

/-- An absent field leaves the target unchanged. -/
theorem mergeField_none {α : Type} (f : α → App → App) (s : App) :
    mergeField Option.none f s = s := rfl

theorem mergeField_id (o : Option String) (s : App) :
    mergeField o (fun v t => { t with id := v }) s = { s with id := o.getD s.id } := by
  cases o <;> rfl

theorem mergeField_details (o : Option String) (s : App) :
    mergeField o (fun v t => { t with details := v }) s
      = { s with details := o.getD s.details } := by
  cases o <;> rfl

theorem mergeField_state (o : Option String) (s : App) :
    mergeField o (fun v t => { t with state := v }) s
      = { s with state := o.getD s.state } := by
  cases o <;> rfl

theorem mergeField_party (o : Option Nat) (s : App) :
    mergeField o (fun v t => { t with party := v }) s
      = { s with party := o.getD s.party } := by
  cases o <;> rfl

theorem mergeField_party_of (o : Option Nat) (s : App) :
    mergeField o (fun v t => { t with party_of := v }) s
      = { s with party_of := o.getD s.party_of } := by
  cases o <;> rfl

theorem mergeField_large_key (o : Option String) (s : App) :
    mergeField o (fun v t => { t with first_img := { t.first_img with key := v } }) s
      = { s with first_img := { s.first_img with key := o.getD s.first_img.key } } := by
  cases o <;> rfl

theorem mergeField_large_text (o : Option String) (s : App) :
    mergeField o (fun v t => { t with first_img := { t.first_img with text := v } }) s
      = { s with first_img := { s.first_img with text := o.getD s.first_img.text } } := by
  cases o <;> rfl

theorem mergeField_small_key (o : Option String) (s : App) :
    mergeField o (fun v t => { t with second_img := { t.second_img with key := v } }) s
      = { s with second_img := { s.second_img with key := o.getD s.second_img.key } } := by
  cases o <;> rfl

theorem mergeField_small_text (o : Option String) (s : App) :
    mergeField o (fun v t => { t with second_img := { t.second_img with text := v } }) s
      = { s with second_img := { s.second_img with text := o.getD s.second_img.text } } := by
  cases o <;> rfl

theorem mergeField_btn1_label (o : Option String) (s : App) :
    mergeField o (fun v t => { t with first_btn := { t.first_btn with label := v } }) s
      = { s with first_btn := { s.first_btn with label := o.getD s.first_btn.label } } := by
  cases o <;> rfl

theorem mergeField_btn1_url (o : Option String) (s : App) :
    mergeField o (fun v t => { t with first_btn := { t.first_btn with url := v } }) s
      = { s with first_btn := { s.first_btn with url := o.getD s.first_btn.url } } := by
  cases o <;> rfl

theorem mergeField_btn2_label (o : Option String) (s : App) :
    mergeField o (fun v t => { t with second_btn := { t.second_btn with label := v } }) s
      = { s with second_btn := { s.second_btn with label := o.getD s.second_btn.label } } := by
  cases o <;> rfl

theorem mergeField_btn2_url (o : Option String) (s : App) :
    mergeField o (fun v t => { t with second_btn := { t.second_btn with url := v } }) s
      = { s with second_btn := { s.second_btn with url := o.getD s.second_btn.url } } := by
  cases o <;> rfl

/-- Closed form of the preset merge: every field-model field becomes the
preset value when present and stays put when absent, except the
timestamp mode, which is written unconditionally. -/
theorem merge_eq (s : App) (p : Preset) :
    merge s p =
      { s with
        id := p.ID.getD s.id
        details := p.Details.getD s.details
        state := p.State.getD s.state
        party := p.PartySize.getD s.party
        party_of := p.PartyMax.getD s.party_of
        timestamp := { timestamp := p.timestamp, date := s.timestamp.date }
        first_img :=
          { key := p.LargeKey.getD s.first_img.key
            text := p.LargeText.getD s.first_img.text }
        second_img :=
          { key := p.SmallKey.getD s.second_img.key
            text := p.SmallText.getD s.second_img.text }
        first_btn :=
          { label := p.Button1Text.getD s.first_btn.label
            url := p.Button1URL.getD s.first_btn.url }
        second_btn :=
          { label := p.Button2Text.getD s.second_btn.label
            url := p.Button2URL.getD s.second_btn.url } } := by
  simp only [merge, mergeField_id, mergeField_details, mergeField_state,
    mergeField_party, mergeField_party_of, mergeField_large_key,
    mergeField_large_text, mergeField_small_key, mergeField_small_text,
    mergeField_btn1_label, mergeField_btn1_url, mergeField_btn2_label,
    mergeField_btn2_url]

/-- Overwriting with the same optional value twice is the same as
overwriting once. -/
theorem optGetD_self {α : Type} (o : Option α) (a : α) :
    o.getD (o.getD a) = o.getD a := by
  cases o <;> rfl

/-- C5: with a loaded preset, `load_preset` overwrites exactly the
fields the preset has present (`getD` keeps the target value on an
absent field), always sets the timestamp mode from the preset's
resolved mode while keeping the custom date, consumes the preset, and
a second cycle does not reapply it. -/
theorem load_preset_merge_contract (s : App) (p : Preset)
    (h : s.menu_bar.loaded_preset = some p) :
    (load_preset s).id = p.ID.getD s.id ∧
    (load_preset s).details = p.Details.getD s.details ∧
    (load_preset s).state = p.State.getD s.state ∧
    (load_preset s).party = p.PartySize.getD s.party ∧
    (load_preset s).party_of = p.PartyMax.getD s.party_of ∧
    (load_preset s).first_img.key = p.LargeKey.getD s.first_img.key ∧
    (load_preset s).first_img.text = p.LargeText.getD s.first_img.text ∧
    (load_preset s).second_img.key = p.SmallKey.getD s.second_img.key ∧
    (load_preset s).second_img.text = p.SmallText.getD s.second_img.text ∧
    (load_preset s).first_btn.label = p.Button1Text.getD s.first_btn.label ∧
    (load_preset s).first_btn.url = p.Button1URL.getD s.first_btn.url ∧
    (load_preset s).second_btn.label = p.Button2Text.getD s.second_btn.label ∧
    (load_preset s).second_btn.url = p.Button2URL.getD s.second_btn.url ∧
    (load_preset s).timestamp.timestamp = p.timestamp ∧
    (load_preset s).timestamp.date = s.timestamp.date ∧
    (load_preset s).menu_bar.loaded_preset = Option.none ∧
    load_preset (load_preset s) = load_preset s := by
  simp [load_preset, h, merge_eq]

/-- C5 witness: a preset carrying only `State = "Idle"` merged onto a
model with `details = "Coding"` sets the state, keeps the details, and
is consumed. -/
theorem load_preset_merge_contract_witness :
    (load_preset
      { app0 with
        details := "Coding"
        menu_bar :=
          { app0.menu_bar with
            loaded_preset := some { allAbsentPreset with State := some "Idle" } } }).state
      = "Idle" ∧
    (load_preset
      { app0 with
        details := "Coding"
        menu_bar :=
          { app0.menu_bar with
            loaded_preset := some { allAbsentPreset with State := some "Idle" } } }).details
      = "Coding" := by
  have h := load_preset_merge_contract
    { app0 with
      details := "Coding"
      menu_bar :=
        { app0.menu_bar with
          loaded_preset := some { allAbsentPreset with State := some "Idle" } } }
    { allAbsentPreset with State := some "Idle" } rfl
  exact ⟨h.2.2.1, h.2.1⟩

/-- C6 counterexample: merging the all-absent preset does not leave the
target byte-for-byte unchanged — it resets the timestamp mode to the
default. -/
theorem merge_all_absent_counterexample :
    merge
      { app0 with timestamp := { timestamp := TimestampEnum.sinceStart, date := 0 } }
      allAbsentPreset ≠
    { app0 with timestamp := { timestamp := TimestampEnum.sinceStart, date := 0 } } := by
  decide

/-- C6 amended: merge is idempotent, and the all-absent preset leaves
every field-model field unchanged except the timestamp mode, which is
unconditionally set to the preset's resolved default mode (None);
targets already in the default mode are therefore left unchanged. -/
theorem merge_idempotent (s : App) (p : Preset) :
    merge (merge s p) p = merge s p ∧
    merge s allAbsentPreset =
      { s with timestamp := { s.timestamp with timestamp := TimestampEnum.none } } := by
  constructor
  · simp [merge_eq, optGetD_self]
  · simp [merge_eq, allAbsentPreset, Preset.timestamp]

/-- C7: `ensure_identity` issues no close and no reopen when the
requested identity equals the one the client handle is bound to,
whatever the connection state; when connected with a different bound
identity it issues exactly one close followed by one reopen (create +
connect) and ends connected with the requested identity bound. -/
theorem ensure_identity_contract (s : App) :
    (s.id = s.client.client_id → ensure_identity s = (s, [])) ∧
    (s.connected = true → s.id ≠ s.client.client_id →
      (ensure_identity s).1.client.client_id = s.id ∧
      (ensure_identity s).1.connected = true ∧
      (ensure_identity s).2 = [IpcOp.close, IpcOp.create s.id, IpcOp.connect]) := by
  by_cases h : s.id = s.client.client_id <;> simp [ensure_identity, h]

/-- C7 witness: connected as "A", requesting "B" closes once, reopens
for "B" once, and ends connected with "B" bound; requesting the bound
identity is a no-op. -/
theorem ensure_identity_contract_witness :
    (ensure_identity { app0 with id := "0" } = ({ app0 with id := "0" }, [])) ∧
    (ensure_identity
      { app0 with connected := true, id := "B", client := { client_id := "A" } }).2
      = [IpcOp.close, IpcOp.create "B", IpcOp.connect] :=
  ⟨(ensure_identity_contract { app0 with id := "0" }).1 rfl,
   ((ensure_identity_contract
      { app0 with connected := true, id := "B", client := { client_id := "A" } }).2
      rfl (by decide)).2.2⟩

/-- C8: the Connect action with an empty identity aborts with the
connection error, leaves the state unchanged (in particular still
Disconnected), and sends no payload. -/
theorem connect_empty_identity (s : App) (clock : Clock) (now : Int)
    (h : s.id = "") :
    connectAction s clock now = (s, [], some ConnError.connectionError) ∧
    (connectAction s clock now).1.connected = s.connected ∧
    (connectAction s clock now).2.1 = [] := by
  simp [connectAction, h]

/-- C8 witness: connecting the empty-identity base app aborts with the
error, stays Disconnected, and sends nothing. -/
theorem connect_empty_identity_witness :
    connectAction app0 clock0 5 = (app0, [], some ConnError.connectionError) ∧
    (connectAction app0 clock0 5).1.connected = false :=
  ⟨(connect_empty_identity app0 clock0 5 rfl).1,
   (connect_empty_identity app0 clock0 5 rfl).2.1.trans rfl⟩

/-- C9 counterexample: when the transport close fails, the Disconnect
action does not complete with a Disconnected state — the `expect` call
panics first, so there is no resulting state at all. -/
theorem disconnect_close_failure_counterexample :
    ¬ (∃ s', disconnectAction { app0 with connected := true } false = some s' ∧
        s'.connected = false) := by
  simp [disconnectAction]

/-- C9 amended: disconnect transitions to Disconnected exactly when the
underlying close succeeds; a failing close panics (terminates the
process) before the flag is cleared, so no fail-open transition to
Disconnected occurs. -/
theorem disconnect_transition (s : App) :
    disconnectAction s true = some { s with connected := false } ∧
    disconnectAction s false = Option.none := by
  simp [disconnectAction]

/-- C10: both the Update action and the Connect action (with a
non-empty identity) stamp `last_update` with the current instant before
the payload send is attempted, so the session clock is modified even
when the subsequent send fails. -/
theorem last_update_stamped_before_send (s : App) (clock : Clock) (now : Int)
    (sendOk : Bool) :
    (updateAction s clock now sendOk).1.last_update = now ∧
    (updateAction s clock now false).1.last_update = now ∧
    (s.id ≠ "" → (connectAction s clock now).1.last_update = now) := by
  refine ⟨?_, ?_, ?_⟩
  · simp [updateAction, set_presence, ensure_identity]
    split <;> simp
  · simp [updateAction, set_presence, ensure_identity]
    split <;> simp
  · intro h
    simp [connectAction, h, set_presence, ensure_identity]

/-- C10 witness: with identity "x" and a failing send, the state at the
send attempt already carries the new `last_update`. -/
theorem last_update_stamped_before_send_witness :
    (updateAction { app0 with id := "x" } clock0 42 false).1.last_update = 42 ∧
    (connectAction { app0 with id := "x" } clock0 42).1.last_update = 42 :=
  ⟨(last_update_stamped_before_send { app0 with id := "x" } clock0 42 false).2.1,
   (last_update_stamped_before_send { app0 with id := "x" } clock0 42 false).2.2
     (by decide)⟩
